import Mathlib

/-!
Verification of the wdled mode-page tool (src/wdled.c) via a shallow
embedding.  Bytes are modelled as `Nat` (with explicit masks where the C
code masks), the in-memory `struct page` as a structure of named byte
fields plus the remaining bytes of the 32-byte union area, and the calls
to the SCSI transport as an explicit operation trace over an abstract
`World` describing the collaborators' answers.
-/

namespace Wdled

/-- The constant PAGE_CODE from wdled.c. -/
def PAGE_CODE : Nat := 0x21

/-- The constant PAGE_MAGIC from wdled.c. -/
def PAGE_MAGIC : Nat := 0x30

/-- The PS (parameters saveable) bit, 1<<7. -/
def PS_BIT : Nat := 1 <<< 7

/-- `struct page` of wdled.c: two header bytes (`code`, `len`) followed by a
32-byte union area, of which the first 10 bytes are the named `wd21` fields
and the remaining 22 bytes (`pad`) are the tail of the `bytes[32]` view. -/
structure Page where
  code : Nat
  len : Nat
  magic : Nat
  zeros0 : Nat
  zeros1 : Nat
  unknown1 : Nat
  zeros2 : Nat
  zeros3 : Nat
  led : Nat
  zeros4 : Nat
  zeros5 : Nat
  zeros6 : Nat
  pad : List Nat
deriving DecidableEq, Repr

/-- The byte serialization of a `Page`, in declaration order of the C
struct: `code`, `len`, then the ten wd21 payload bytes, then the tail of
the union area. -/
def Page.bytes (p : Page) : List Nat :=
  [p.code, p.len, p.magic, p.zeros0, p.zeros1, p.unknown1,
   p.zeros2, p.zeros3, p.led, p.zeros4, p.zeros5, p.zeros6] ++ p.pad

/-- Decode a byte buffer into a `Page` (field at its fixed offset, missing
bytes read as 0, the bytes past the wd21 payload becoming `pad`). -/
def decodePage (bs : List Nat) : Page where
  code := bs.getD 0 0
  len := bs.getD 1 0
  magic := bs.getD 2 0
  zeros0 := bs.getD 3 0
  zeros1 := bs.getD 4 0
  unknown1 := bs.getD 5 0
  zeros2 := bs.getD 6 0
  zeros3 := bs.getD 7 0
  led := bs.getD 8 0
  zeros4 := bs.getD 9 0
  zeros5 := bs.getD 10 0
  zeros6 := bs.getD 11 0
  pad := bs.drop 12

/-- `struct mode_parameter_header` is 8 bytes and is fully zeroed by the
`memset` in wdled.c before submission. -/
def modeParameterHeaderBytes : List Nat := List.replicate 8 0

/-- `sizeof(packet.header) + 2 + sizeof(packet.page.wd21)` from wdled.c
line 256: the byte count handed to `sg_ll_mode_select10`. -/
def packetSize : Nat := 8 + 2 + 10

/-- The page part of the mode-select packet: `memcpy` of `current`, then
`packet.page.code &= current.code & 0x7f` and the uint8 store
`packet.page.wd21.led = new`. -/
def buildPacketPage (current : Page) (n : Nat) : Page :=
  { current with
      code := current.code &&& (current.code &&& 0x7f)
      led := n % 256 }

/-- The bytes actually handed to the transport: the zero header followed by
the packet page's bytes, truncated to `packetSize` (the C code passes the
42-byte struct but a byte count of only `packetSize`). -/
def packetBytes (current : Page) (n : Nat) : List Nat :=
  (modeParameterHeaderBytes ++ (buildPacketPage current n).bytes).take packetSize

/-- Validation failures of wdled.c lines 222-240, each carrying the byte
that the corresponding `eprintf` reports. -/
inductive ValFail where
  | pageId (b : Nat)
  | pageLength (b : Nat)
  | magicByte (b : Nat)
  | ledMask (b : Nat)
deriving DecidableEq, Repr

/-- The mode-page validation of wdled.c lines 222-240, in source order:
page id for all four variants, then length for all four, then the current
page's magic, then the changeable mask's LED byte. -/
def validate (current changeable original saved : Page) : Option ValFail :=
  if current.code ≠ PAGE_CODE ||| PS_BIT ∨ changeable.code ≠ PAGE_CODE ||| PS_BIT ∨
      original.code ≠ PAGE_CODE ||| PS_BIT ∨ saved.code ≠ PAGE_CODE ||| PS_BIT then
    some (.pageId current.code)
  else if current.len ≠ 10 ∨ changeable.len ≠ 10 ∨ original.len ≠ 10 ∨ saved.len ≠ 10 then
    some (.pageLength current.len)
  else if current.magic ≠ PAGE_MAGIC then
    some (.magicByte current.magic)
  else if changeable.led ≠ 0xff then
    some (.ledMask changeable.led)
  else
    none

/-- The six characters `isspace` accepts in the C locale, by ASCII code:
space, tab, newline, vertical tab, form feed, carriage return. -/
def cSpace (c : Char) : Bool :=
  c.toNat = 32 || c.toNat = 9 || c.toNat = 10 || c.toNat = 11 || c.toNat = 12 || c.toNat = 13

/-- Value of a character as a digit in the given base (`0`-`9`, `a`-`f`,
`A`-`F` by ASCII code), `none` when the character is not a digit of that
base. -/
def digitVal? (base : Nat) (c : Char) : Option Nat :=
  if 48 ≤ c.toNat ∧ c.toNat ≤ 57 then
    if c.toNat - 48 < base then some (c.toNat - 48) else none
  else if 97 ≤ c.toNat ∧ c.toNat ≤ 102 then
    if c.toNat - 87 < base then some (c.toNat - 87) else none
  else if 65 ≤ c.toNat ∧ c.toNat ≤ 70 then
    if c.toNat - 55 < base then some (c.toNat - 55) else none
  else none

/-- Accumulate digits of `base` from the front of the list, returning the
value and the number of characters consumed (starting from `acc`/`k`). -/
def parseDigitsAux (base : Nat) (acc k : Nat) : List Char → Nat × Nat
  | [] => (acc, k)
  | c :: cs =>
    match digitVal? base c with
    | none => (acc, k)
    | some d => parseDigitsAux base (acc * base + d) (k + 1) cs

/-- `strtol(s, &endptr, 0)`: skip C whitespace, an optional sign, then a
`0x`/`0X` hex numeral, a leading-`0` octal numeral, or a decimal numeral.
Returns the (unclamped) value and the number of characters consumed, i.e.
`endptr - s`; a consumed count of 0 means no conversion was performed. -/
def strtol0 (s : List Char) : Int × Nat :=
  let ws := (s.takeWhile cSpace).length
  let r1 := s.drop ws
  let signNeg : Bool := r1.head? = some '-'
  let signLen : Nat := if r1.head? = some '-' ∨ r1.head? = some '+' then 1 else 0
  let r2 := r1.drop signLen
  let sgn : Nat → Int := fun v => if signNeg then -(v : Int) else (v : Int)
  if r2.head? = some '0' then
    let r3 := r2.drop 1
    if r3.head? = some 'x' ∨ r3.head? = some 'X' then
      let vc := parseDigitsAux 16 0 0 (r3.drop 1)
      if vc.2 = 0 then (0, ws + signLen + 1)
      else (sgn vc.1, ws + signLen + 2 + vc.2)
    else
      let vc := parseDigitsAux 8 0 0 r3
      (sgn vc.1, ws + signLen + 1 + vc.2)
  else
    let vc := parseDigitsAux 10 0 0 r2
    if vc.2 = 0 then (0, 0) else (sgn vc.1, ws + signLen + vc.2)

/-- Saturation of `strtol`'s result to the range of a 64-bit `long`
(LONG_MIN .. LONG_MAX). -/
def clampLong (v : Int) : Int :=
  max (-9223372036854775808) (min 9223372036854775807 v)

/-- Two's-complement wrap of a value into the range of a 32-bit `int`, as
performed by the assignment `int new = strtol(...)` (modulo 2^32, then
shifted into -2^31 .. 2^31 - 1). -/
def wrapInt32 (v : Int) : Int :=
  let m := v % 4294967296
  if m < 2147483648 then m else m - 4294967296

/-- `strncmp(s, pre, strlen(pre)) == 0` and the stripped remainder. -/
def stripLit (pre s : List Char) : List Char × Bool :=
  if s.take pre.length = pre then (s.drop pre.length, true) else (s, false)

/-- `strncasecmp(s, pre, strlen(pre)) == 0` (for an all-lowercase `pre`)
and the stripped remainder. -/
def stripCaseLit (pre s : List Char) : List Char × Bool :=
  if (s.take pre.length).map Char.toLower = pre then (s.drop pre.length, true) else (s, false)

/-- The `off`/`on`/`strtol` portion of the argument processing of wdled.c
lines 145-156, applied to the value string after the `FORCESET:`/`save:`
stripping: the accepted LED value, or `none` for the
"Unknown value" rejection.  The rejection condition is the C one:
`endptr != arg + strlen(arg) || new < 0x00 || new > 0xff`, applied to the
value after the `long`-to-`int` conversion. -/
def parseLedValue (a2 : List Char) : Option Int :=
  if a2 = "off".toList then some 0
  else if a2 = "on".toList then some 255
  else
    let vc := strtol0 a2
    let n := wrapInt32 (clampLong vc.1)
    if vc.2 = a2.length ∧ 0 ≤ n ∧ n ≤ 255 then some n else none

/-- The outcome of processing `argv[2]`: the `force` and `save` flags and
the requested value (−1 when only `FORCEGET` was given). -/
structure ArgSpec where
  force : Bool
  save : Bool
  new : Int
deriving DecidableEq, Repr

/-- Processing of `argv[2]` (wdled.c lines 127-158): the exact-match
`FORCEGET` token, else optional `FORCESET:` prefix (case-sensitive) and
optional `save:` prefix (case-insensitive) followed by the value. -/
def processValueArg (arg : String) : Option ArgSpec :=
  if arg = "FORCEGET" then some ⟨true, false, -1⟩
  else
    let s1 := stripLit "FORCESET:".toList arg.toList
    let s2 := stripCaseLit "save:".toList s1.1
    match parseLedValue s2.1 with
    | some n => some ⟨s1.2, s2.2, n⟩
    | none => none

/-- Argument processing for the whole invocation: no `argv[2]` means
`force = save = false` and `new = -1`. -/
def parseArgs : Option String → Option ArgSpec
  | none => some ⟨false, false, -1⟩
  | some a => processValueArg a

/-- The verified WD product names table of wdled.c. -/
def wd_products : List String :=
  ["My Passport 259D", "My Passport 259E", "My Passport 259F",
   "My Passport 259A", "My Passport 25E1", "My Passport 25E2"]

/-- The `supported` vendor table of wdled.c. -/
def supported : List (String × List String) := [("WD      ", wd_products)]

/-- An inquiry response: vendor, product and revision strings. -/
structure Inquiry where
  vendor : String
  product : String
  revision : String
deriving DecidableEq, Repr

/-- The vendor/product scan of wdled.c lines 183-193: the first vendor
entry matching the inquiry's vendor is selected, and the device passes
exactly when that entry exists and lists the inquiry's product. -/
def deviceOk (inq : Inquiry) : Bool :=
  match supported.find? (fun e => e.1 = inq.vendor) with
  | some e => e.2.contains inq.product
  | none => false

/-- One call to a transport/device collaborator, in the order performed. -/
inductive Op where
  | openDev (readOnly : Bool)
  | inquire
  | fetch
  | submit (payload : List Nat) (persist : Bool)
deriving DecidableEq, Repr

/-- The answers the external collaborators would give in this run. -/
structure World where
  openOk : Bool
  inquiryResult : Option Inquiry
  fetchResult : Option (Page × Page × Page × Page)
  submitOk : Bool

/-- The errors a run can end with. -/
inductive ErrKind where
  | OpenFailed
  | InquiryFailed
  | UnsupportedDevice
  | FetchFailed
  | UnexpectedPageId
  | UnexpectedPageLength
  | UnexpectedMagic
  | LedNotChangeable
  | InvalidRequestedValue
  | SubmitFailed
  | UsageError
deriving DecidableEq, Repr

/-- The error kind a validation failure aborts the run with. -/
def ValFail.kind : ValFail → ErrKind
  | .pageId _ => .UnexpectedPageId
  | .pageLength _ => .UnexpectedPageLength
  | .magicByte _ => .UnexpectedMagic
  | .ledMask _ => .LedNotChangeable

/-- The observable outcome of a run: exit status, the trace of collaborator
calls, the lines printed to stdout, and the error (if any). -/
structure RunResult where
  exitCode : Nat
  ops : List Op
  stdoutLines : List String
  error : Option ErrKind
deriving DecidableEq, Repr

/-- The one stdout line of wdled.c (line 243):
`printf("LED: current=%d original=%d saved=%d\n", ...)`. -/
def ledLine (current original saved : Page) : String :=
  "LED: current=" ++ toString current.led ++ " original=" ++ toString original.led
    ++ " saved=" ++ toString saved.led

/-- The whole run of `main` for `argv = [_, device]` or
`argv = [_, device, arg]` (wdled.c lines 100-266): help check, argument
processing, open (read-only exactly when no value was requested), inquiry,
vendor/product check (skippable only by `force`), four-variant fetch,
validation, report, and the optional mode-select write. -/
def run (w : World) (device : String) (valueArg : Option String) : RunResult :=
  if device = "--help" ∨ device = "-help" ∨ device = "-h" then
    ⟨1, [], [], some .UsageError⟩
  else
    match parseArgs valueArg with
    | none => ⟨1, [], [], some .InvalidRequestedValue⟩
    | some a =>
      let readOnly : Bool := a.new < 0
      let ops0 := [Op.openDev readOnly]
      if w.openOk = false then ⟨1, ops0, [], some .OpenFailed⟩
      else
        let ops1 := ops0 ++ [Op.inquire]
        match w.inquiryResult with
        | none => ⟨1, ops1, [], some .InquiryFailed⟩
        | some inq =>
          if deviceOk inq = false ∧ a.force = false then
            ⟨1, ops1, [], some .UnsupportedDevice⟩
          else
            let ops2 := ops1 ++ [Op.fetch]
            match w.fetchResult with
            | none => ⟨1, ops2, [], some .FetchFailed⟩
            | some pages =>
              match validate pages.1 pages.2.1 pages.2.2.1 pages.2.2.2 with
              | some e => ⟨1, ops2, [], some e.kind⟩
              | none =>
                let line := ledLine pages.1 pages.2.2.1 pages.2.2.2
                if 0 ≤ a.new then
                  let ops3 := ops2 ++ [Op.submit (packetBytes pages.1 a.new.toNat) a.save]
                  if w.submitOk then ⟨0, ops3, [line], none⟩
                  else ⟨1, ops3, [line], some .SubmitFailed⟩
                else ⟨0, ops2, [line], none⟩

/-! Concrete fixtures used by witnesses and counterexamples. -/

/-- A well-formed `current` page with LED value 10. -/
def goodCurrent : Page := ⟨0xA1, 10, 0x30, 0, 0, 0, 0, 0, 10, 0, 0, 0, List.replicate 22 0⟩

/-- A well-formed changeable mask whose LED byte is fully changeable. -/
def goodChangeable : Page := { goodCurrent with led := 0xff }

/-- A well-formed default/original page with LED value 0. -/
def goodOriginal : Page := { goodCurrent with led := 0 }

/-- A well-formed saved page with LED value 10. -/
def goodSaved : Page := goodCurrent

/-- An all-zero page. -/
def zeroPage : Page := ⟨0, 0, 0, 0, 0, 0, 0, 0, 0, 0, 0, 0, List.replicate 22 0⟩

/-- An inquiry answer for a supported WD device. -/
def wdInquiry : Inquiry := ⟨"WD      ", "My Passport 259D", "1.00"⟩

/-- A world where every collaborator succeeds and the fetched pages are
well-formed. -/
def goodWorld : World :=
  ⟨true, some wdInquiry, some (goodCurrent, goodChangeable, goodOriginal, goodSaved), true⟩

/-- A world whose fetch returns four all-zero pages. -/
def zeroFetchWorld : World :=
  ⟨true, some wdInquiry, some (zeroPage, zeroPage, zeroPage, zeroPage), true⟩

/-- A world whose fetched changeable mask does not mark the LED byte
changeable, while everything else is well-formed. -/
def ledStuckWorld : World :=
  ⟨true, some wdInquiry, some (goodCurrent, goodCurrent, goodOriginal, goodSaved), true⟩

/-- A world where the inquiry reports an unsupported vendor and the fetch
returns pages failing validation. -/
def forcedBadWorld : World :=
  ⟨true, some ⟨"ACME", "Widget", "0.1"⟩, some (zeroPage, zeroPage, zeroPage, zeroPage), true⟩

/-- A page with valid code but zero length and zero magic. -/
def badLenPage : Page := { goodCurrent with len := 0, magic := 0 }

/-- A page differing from a valid current page only in its magic byte. -/
def badMagicPage : Page := { goodCurrent with magic := 0 }

/-- A changeable mask whose code byte violates the page-id rule. -/
def badCodeChangeable : Page := { goodChangeable with code := 0 }

/-- The report-line shape claimed by the spec (`current=<n> default=<n>
saved=<n>`), at the level of character data. -/
def SpecReportForm (line : String) : Prop :=
  ∃ a b c : Nat, line.data =
    "current=".data ++ (toString a).data ++ " default=".data ++ (toString b).data
      ++ " saved=".data ++ (toString c).data

/-! Spec-side validation rules (written from §4.2 of the spec, for the
refinement statements about rule order and reported bytes). -/

/-- Spec rule 1: the code byte (page id with the saveable bit set) matches
for all four variants. -/
def specRulePageId (c ch o s : Page) : Prop :=
  c.code = PAGE_CODE ||| PS_BIT ∧ ch.code = PAGE_CODE ||| PS_BIT ∧
  o.code = PAGE_CODE ||| PS_BIT ∧ s.code = PAGE_CODE ||| PS_BIT

/-- Spec rule 2: the declared length equals the vendor payload size (10)
for all four variants. -/
def specRuleLength (c ch o s : Page) : Prop :=
  c.len = 10 ∧ ch.len = 10 ∧ o.len = 10 ∧ s.len = 10

/-- Spec rule 3: the current page's magic byte equals the fixed constant. -/
def specRuleMagic (c : Page) : Prop := c.magic = PAGE_MAGIC

/-- Spec rule 4: the changeable mask marks every bit of the LED byte
modifiable. -/
def specRuleLed (ch : Page) : Prop := ch.led = 0xff

instance (c ch o s : Page) : Decidable (specRulePageId c ch o s) := by
  unfold specRulePageId; exact inferInstance

instance (c ch o s : Page) : Decidable (specRuleLength c ch o s) := by
  unfold specRuleLength; exact inferInstance

instance (c : Page) : Decidable (specRuleMagic c) := by
  unfold specRuleMagic; exact inferInstance

instance (ch : Page) : Decidable (specRuleLed ch) := by
  unfold specRuleLed; exact inferInstance

/-! Spec-side numeric strings (written from §6 of the spec: a numeric byte
is decimal or `0x`-prefixed hex), used to compare against the program's
`strtol`-based parsing. -/

/-- A hexadecimal digit (`0`-`9`, `a`-`f`, `A`-`F`) by ASCII code. -/
def specHexDigit (c : Char) : Bool :=
  (48 ≤ c.toNat && c.toNat ≤ 57) || (97 ≤ c.toNat && c.toNat ≤ 102) ||
    (65 ≤ c.toNat && c.toNat ≤ 70)

/-- The value of a hexadecimal digit. -/
def specHexDigitVal (c : Char) : Nat :=
  if c.toNat ≤ 57 then c.toNat - 48 else if 97 ≤ c.toNat then c.toNat - 87 else c.toNat - 55

/-- The value of a decimal digit string. -/
def specDecimalVal (cs : List Char) : Nat :=
  cs.foldl (fun a c => a * 10 + (c.toNat - 48)) 0

/-- A nonempty all-decimal-digit string and its value, per the spec. -/
def specDecimal? (s : String) : Option Nat :=
  if s.data ≠ [] ∧ s.data.all (fun c => 48 ≤ c.toNat && c.toNat ≤ 57) then
    some (specDecimalVal s.data)
  else none

/-- The value of a hexadecimal digit string. -/
def specHexVal (cs : List Char) : Nat :=
  cs.foldl (fun a c => a * 16 + specHexDigitVal c) 0

/-- A `0x`-prefixed nonempty hexadecimal string and its value, per the
spec. -/
def specHex? (s : String) : Option Nat :=
  match s.data with
  | '0' :: 'x' :: rest =>
    if rest ≠ [] ∧ rest.all specHexDigit then some (specHexVal rest) else none
  | _ => none

/-! Helper lemmas. -/

/-- The masked-and-set page id constant: `PAGE_CODE | PS_BIT = 0xA1`. -/
theorem pageIdConst : PAGE_CODE ||| PS_BIT = 161 := by decide

set_option maxRecDepth 8000 in
/-- A byte equals `0xA1` exactly when its low 7 bits are `0x21` and its
top bit is set. -/
theorem byte_eq_A1_iff : ∀ n : Nat, n < 256 →
    (n = 161 ↔ (n &&& 0x7f = 0x21 ∧ n &&& 0x80 ≠ 0)) := by decide

/-- Absorbing the duplicated mask of `packet.page.code &= current.code & 0x7f`. -/
theorem and_self_and (x : Nat) : x &&& (x &&& 127) = x &&& 127 := by
  rw [← Nat.and_assoc, Nat.and_self]

/-- The masked code byte has the PS bit clear. -/
theorem and_127_and_128 (x : Nat) : (x &&& 127) &&& 128 = 0 := by
  rw [Nat.and_assoc, (show (127 : Nat) &&& 128 = 0 from rfl), Nat.and_zero]

/-- The transmitted buffer always holds exactly `packetSize` bytes. -/
theorem packetBytes_length (c : Page) (n : Nat) : (packetBytes c n).length = packetSize := by
  simp [packetBytes, modeParameterHeaderBytes, Page.bytes, buildPacketPage, packetSize]

/-- `validate` yields a page-id failure exactly when some variant's code
byte differs from `0xA1`. -/
theorem validate_pageId_iff (c ch o s : Page) :
    (∃ b, validate c ch o s = some (.pageId b)) ↔
      ¬ (c.code = 161 ∧ ch.code = 161 ∧ o.code = 161 ∧ s.code = 161) := by
  rw [validate]
  simp only [pageIdConst]
  by_cases h : c.code ≠ 161 ∨ ch.code ≠ 161 ∨ o.code ≠ 161 ∨ s.code ≠ 161
  · simp only [if_pos h]
    constructor
    · intro _; tauto
    · intro _; exact ⟨c.code, rfl⟩
  · simp only [if_neg h]
    push_neg at h
    constructor
    · rintro ⟨b, hb⟩
      repeat' split at hb
      all_goals simp_all
    · intro hall
      exact absurd hall (by tauto)

/-- Full ordered characterization of `validate`: the four rules run in
source order, the first failure wins and carries its fixed diagnostic
byte, and all rules passing yields success.  Shared by several claims. -/
theorem validate_cases (c ch o s : Page) :
    (¬ specRulePageId c ch o s → validate c ch o s = some (.pageId c.code)) ∧
    (specRulePageId c ch o s → ¬ specRuleLength c ch o s →
      validate c ch o s = some (.pageLength c.len)) ∧
    (specRulePageId c ch o s → specRuleLength c ch o s → ¬ specRuleMagic c →
      validate c ch o s = some (.magicByte c.magic)) ∧
    (specRulePageId c ch o s → specRuleLength c ch o s → specRuleMagic c →
      ¬ specRuleLed ch → validate c ch o s = some (.ledMask ch.led)) ∧
    (specRulePageId c ch o s → specRuleLength c ch o s → specRuleMagic c →
      specRuleLed ch → validate c ch o s = none) := by
  unfold specRulePageId specRuleLength specRuleMagic specRuleLed validate
  refine ⟨?_, ?_, ?_, ?_, ?_⟩ <;> intros <;> split_ifs <;> first | rfl | tauto

/-! The claims. -/

/-- Claim C1: for every current page and requested LED value X in 0..255,
building the write payload and decoding the transmitted bytes back yields
a page whose led byte is X, whose code byte has the saveable (top) bit
cleared, and whose every other transmitted byte (code low 7 bits, length,
magic, reserved bytes) equals the source current page's. -/
theorem c1_write_roundtrip (current : Page) (X : Nat) (hX : X ≤ 255) :
    decodePage ((packetBytes current X).drop 8) =
      { code := current.code &&& 0x7f
        len := current.len
        magic := current.magic
        zeros0 := current.zeros0
        zeros1 := current.zeros1
        unknown1 := current.unknown1
        zeros2 := current.zeros2
        zeros3 := current.zeros3
        led := X
        zeros4 := current.zeros4
        zeros5 := current.zeros5
        zeros6 := current.zeros6
        pad := [] } ∧
    (current.code &&& 0x7f) &&& 0x80 = 0 := by
  have hm : X % 256 = X := Nat.mod_eq_of_lt (by omega)
  refine ⟨?_, and_127_and_128 current.code⟩
  simp [packetBytes, modeParameterHeaderBytes, buildPacketPage, Page.bytes, decodePage,
    packetSize, and_self_and, hm]

/-- Witness for C1 at a concrete page and X = 7. -/
theorem c1_write_roundtrip_witness :
    (7 : Nat) ≤ 255 ∧
    (decodePage ((packetBytes goodCurrent 7).drop 8) =
      { code := goodCurrent.code &&& 0x7f
        len := goodCurrent.len
        magic := goodCurrent.magic
        zeros0 := goodCurrent.zeros0
        zeros1 := goodCurrent.zeros1
        unknown1 := goodCurrent.unknown1
        zeros2 := goodCurrent.zeros2
        zeros3 := goodCurrent.zeros3
        led := 7
        zeros4 := goodCurrent.zeros4
        zeros5 := goodCurrent.zeros5
        zeros6 := goodCurrent.zeros6
        pad := [] } ∧
    (goodCurrent.code &&& 0x7f) &&& 0x80 = 0) :=
  ⟨by decide, c1_write_roundtrip goodCurrent 7 (by decide)⟩

/-- Claim C2: every buffer handed to the mode-select submission holds
header-size + 2 + 10 bytes, and the padding bytes of the in-memory record
never influence the transmitted buffer. -/
theorem c2_submit_size :
    (∀ (w : World) (dev : String) (va : Option String) (p : List Nat) (persist : Bool),
        Op.submit p persist ∈ (run w dev va).ops → p.length = 8 + 2 + 10) ∧
    (∀ (current : Page) (n : Nat) (padBytes : List Nat),
        packetBytes current n = packetBytes { current with pad := padBytes } n) := by
  constructor
  · intro w dev va p persist hmem
    rw [run] at hmem
    split at hmem
    · simp at hmem
    · split at hmem
      · simp at hmem
      · split at hmem
        · simp at hmem
        · split at hmem
          · simp at hmem
          · split at hmem
            · simp at hmem
            · split at hmem
              · simp at hmem
              · split at hmem
                · simp at hmem
                · split at hmem
                  · split at hmem
                    · simp at hmem
                      rw [hmem.1, packetBytes_length, packetSize]
                    · simp at hmem
                      rw [hmem.1, packetBytes_length, packetSize]
                  · simp at hmem
  · intro current n padBytes
    rfl

/-- Witness for C2: a concrete successful `save:off` run whose trace holds
a submit of exactly 20 bytes. -/
theorem c2_submit_size_witness :
    Op.submit (packetBytes goodCurrent 0) true ∈ (run goodWorld "/dev/sg0" (some "save:off")).ops ∧
    (packetBytes goodCurrent 0).length = 8 + 2 + 10 :=
  ⟨by decide,
   c2_submit_size.1 goodWorld "/dev/sg0" (some "save:off") (packetBytes goodCurrent 0) true
     (by decide)⟩

/-- Claim C3: for byte-valued code fields, validation yields the page-id
failure exactly when some variant's code violates low-7-bits = 0x21 or has
the saveable bit clear; equivalently the rule passes exactly when all four
code bytes equal 0xA1. -/
theorem c3_page_id_check (c ch o s : Page)
    (hc : c.code < 256) (hch : ch.code < 256) (ho : o.code < 256) (hs : s.code < 256) :
    ((∃ b, validate c ch o s = some (.pageId b)) ↔
      ¬ ((c.code &&& 0x7f = 0x21 ∧ c.code &&& 0x80 ≠ 0) ∧
         (ch.code &&& 0x7f = 0x21 ∧ ch.code &&& 0x80 ≠ 0) ∧
         (o.code &&& 0x7f = 0x21 ∧ o.code &&& 0x80 ≠ 0) ∧
         (s.code &&& 0x7f = 0x21 ∧ s.code &&& 0x80 ≠ 0))) ∧
    ((∀ b, validate c ch o s ≠ some (.pageId b)) ↔
      (c.code = 0xA1 ∧ ch.code = 0xA1 ∧ o.code = 0xA1 ∧ s.code = 0xA1)) := by
  constructor
  · rw [validate_pageId_iff]
    rw [byte_eq_A1_iff c.code hc, byte_eq_A1_iff ch.code hch,
      byte_eq_A1_iff o.code ho, byte_eq_A1_iff s.code hs]
  · have h := validate_pageId_iff c ch o s
    constructor
    · intro hall
      by_contra hq
      obtain ⟨b, hb⟩ := h.mpr hq
      exact hall b hb
    · intro hq b hb
      exact h.mp ⟨b, hb⟩ hq

/-- Witness for C3 at four all-`0xA1`-coded pages. -/
theorem c3_page_id_check_witness :
    ((∃ b, validate goodCurrent goodChangeable goodOriginal goodSaved = some (.pageId b)) ↔
      ¬ ((goodCurrent.code &&& 0x7f = 0x21 ∧ goodCurrent.code &&& 0x80 ≠ 0) ∧
         (goodChangeable.code &&& 0x7f = 0x21 ∧ goodChangeable.code &&& 0x80 ≠ 0) ∧
         (goodOriginal.code &&& 0x7f = 0x21 ∧ goodOriginal.code &&& 0x80 ≠ 0) ∧
         (goodSaved.code &&& 0x7f = 0x21 ∧ goodSaved.code &&& 0x80 ≠ 0))) ∧
    ((∀ b, validate goodCurrent goodChangeable goodOriginal goodSaved ≠ some (.pageId b)) ↔
      (goodCurrent.code = 0xA1 ∧ goodChangeable.code = 0xA1 ∧
        goodOriginal.code = 0xA1 ∧ goodSaved.code = 0xA1)) :=
  c3_page_id_check goodCurrent goodChangeable goodOriginal goodSaved
    (by decide) (by decide) (by decide) (by decide)

/-- A successful validation implies the changeable LED byte was `0xff`. -/
theorem led_of_validate_none (c ch o s : Page) (h : validate c ch o s = none) :
    ch.led = 255 := by
  unfold validate at h
  split_ifs at h
  simp_all

/-- Counterexample to C4 as stated: a fetched all-zero set has
`changeable.led ≠ 0xff`, yet the run raises `UnexpectedPageId`, not
`LedNotChangeable` (the page-id rule fails first). -/
theorem c4_counterexample :
    zeroPage.led ≠ 0xff ∧
    zeroFetchWorld.fetchResult = some (zeroPage, zeroPage, zeroPage, zeroPage) ∧
    (run zeroFetchWorld "/dev/sg0" (some "on")).error = some .UnexpectedPageId ∧
    (run zeroFetchWorld "/dev/sg0" (some "on")).error ≠ some .LedNotChangeable := by
  decide

/-- Claim C4 (amended): for every run whose fetched set has
`changeable.led ≠ 0xff`, the run exits 1 and the submit operation is never
invoked, even when a value was requested; and when the page-id, length and
magic rules pass, the raised error is `LedNotChangeable`. -/
theorem c4_led_gate (w : World) (dev : String) (va : Option String)
    (c ch o s : Page) (hf : w.fetchResult = some (c, ch, o, s)) (hled : ch.led ≠ 0xff) :
    (run w dev va).exitCode = 1 ∧
    (∀ p persist, Op.submit p persist ∉ (run w dev va).ops) ∧
    (Op.fetch ∈ (run w dev va).ops →
      specRulePageId c ch o s → specRuleLength c ch o s → specRuleMagic c →
      (run w dev va).error = some .LedNotChangeable) := by
  rw [run, hf]
  split
  · exact ⟨rfl, by simp, by intro h; simp at h⟩
  · split
    · exact ⟨rfl, by simp, by intro h; simp at h⟩
    · split
      · exact ⟨rfl, by simp, by intro h; simp at h⟩
      · split
        · exact ⟨rfl, by simp, by intro h; simp at h⟩
        · split
          · exact ⟨rfl, by simp, by intro h; simp at h⟩
          · split
            · rename_i heq
              exact absurd heq (by simp)
            · rename_i pages heq
              obtain rfl : (c, ch, o, s) = pages := Option.some.inj heq
              split
              · rename_i e heq2
                refine ⟨rfl, by simp, ?_⟩
                intro _ h1 h2 h3
                have hv := (validate_cases c ch o s).2.2.2.1 h1 h2 h3 hled
                have heq2' : validate c ch o s = some e := heq2
                rw [hv] at heq2'
                injection heq2' with he
                subst he
                rfl
              · rename_i heq2
                have heq2' : validate c ch o s = none := heq2
                exact absurd (led_of_validate_none c ch o s heq2') hled

/-- Witness for C4 (amended) at a concrete world whose changeable mask
has a non-0xff LED byte but otherwise valid pages. -/
theorem c4_led_gate_witness :
    (run ledStuckWorld "/dev/sg0" (some "on")).exitCode = 1 ∧
    (∀ p persist, Op.submit p persist ∉ (run ledStuckWorld "/dev/sg0" (some "on")).ops) ∧
    (Op.fetch ∈ (run ledStuckWorld "/dev/sg0" (some "on")).ops →
      specRulePageId goodCurrent goodCurrent goodOriginal goodSaved →
      specRuleLength goodCurrent goodCurrent goodOriginal goodSaved →
      specRuleMagic goodCurrent →
      (run ledStuckWorld "/dev/sg0" (some "on")).error = some .LedNotChangeable) :=
  c4_led_gate ledStuckWorld "/dev/sg0" (some "on")
    goodCurrent goodCurrent goodOriginal goodSaved rfl (by decide)

/-- Counterexample to C7 as stated: a fetched set whose current magic
differs from 0x30 can fail with the length error instead of
`UnexpectedMagic` — the magic rule is not checked first. -/
theorem c7_counterexample :
    badLenPage.magic ≠ 0x30 ∧
    validate badLenPage badLenPage badLenPage badLenPage = some (.pageLength 0) ∧
    (∀ b, validate badLenPage badLenPage badLenPage badLenPage ≠ some (.magicByte b)) := by
  have hv : validate badLenPage badLenPage badLenPage badLenPage = some (.pageLength 0) := by
    decide
  exact ⟨by decide, hv, fun b h => by simp [hv] at h⟩

/-- Claim C7 (amended): for every fetched set that passes the page-id and
length rules and whose current magic differs from 0x30, validation fails
with the magic error carrying that byte, regardless of the remaining
fields; and that failure maps to `UnexpectedMagic`. -/
theorem c7_magic_check (c ch o s : Page)
    (h1 : specRulePageId c ch o s) (h2 : specRuleLength c ch o s)
    (h3 : c.magic ≠ PAGE_MAGIC) :
    validate c ch o s = some (.magicByte c.magic) ∧
    (ValFail.magicByte c.magic).kind = .UnexpectedMagic :=
  ⟨(validate_cases c ch o s).2.2.1 h1 h2 h3, rfl⟩

/-- Witness for C7 (amended) at a concrete set with magic byte 0. -/
theorem c7_magic_check_witness :
    validate badMagicPage goodChangeable goodOriginal goodSaved =
      some (.magicByte badMagicPage.magic) ∧
    (ValFail.magicByte badMagicPage.magic).kind = .UnexpectedMagic :=
  c7_magic_check badMagicPage goodChangeable goodOriginal goodSaved
    (by decide) (by decide) (by decide)

/-- Counterexample to C8 as stated: when the changeable variant violates
the page-id rule, the reported diagnostic byte is the current variant's
code (0xA1), not the violating variant's byte (0). -/
theorem c8_counterexample :
    validate goodCurrent badCodeChangeable goodOriginal goodSaved = some (.pageId 161) ∧
    badCodeChangeable.code = 0 ∧ goodCurrent.code = 161 ∧ (161 : Nat) ≠ 0 := by
  decide

/-- Claim C8 (amended): validation applies its four rules in the fixed
order page-id, length, magic, led-changeable; the first failing rule
aborts all further checks; the reported diagnostic byte is the current
variant's code, the current variant's length, the current variant's magic,
or the changeable variant's LED byte respectively (for the first two rules
this may differ from the violating variant's byte). -/
theorem c8_validation_order (c ch o s : Page) :
    (¬ specRulePageId c ch o s → validate c ch o s = some (.pageId c.code)) ∧
    (specRulePageId c ch o s → ¬ specRuleLength c ch o s →
      validate c ch o s = some (.pageLength c.len)) ∧
    (specRulePageId c ch o s → specRuleLength c ch o s → ¬ specRuleMagic c →
      validate c ch o s = some (.magicByte c.magic)) ∧
    (specRulePageId c ch o s → specRuleLength c ch o s → specRuleMagic c →
      ¬ specRuleLed ch → validate c ch o s = some (.ledMask ch.led)) ∧
    (specRulePageId c ch o s → specRuleLength c ch o s → specRuleMagic c →
      specRuleLed ch → validate c ch o s = none) :=
  validate_cases c ch o s

/-- Witness for C8 (amended): at an all-zero set the first rule fails and
the reported byte is the current page's code. -/
theorem c8_validation_order_witness :
    validate zeroPage zeroPage zeroPage zeroPage = some (.pageId zeroPage.code) :=
  (c8_validation_order zeroPage zeroPage zeroPage zeroPage).1 (by decide)

/-- Counterexample to C6 as stated: the read-only run on a valid device
exits 0 and prints one LED line, but the line is
`LED: current=10 original=0 saved=10` — labelled `original`, not
`default`, so it is not of the claimed form. -/
theorem c6_counterexample :
    (run goodWorld "/dev/sg0" none).exitCode = 0 ∧
    (run goodWorld "/dev/sg0" none).stdoutLines = ["LED: current=10 original=0 saved=10"] ∧
    (∀ p persist, Op.submit p persist ∉ (run goodWorld "/dev/sg0" none).ops) ∧
    ¬ SpecReportForm "LED: current=10 original=0 saved=10" := by
  have hops : (run goodWorld "/dev/sg0" none).ops = [Op.openDev true, Op.inquire, Op.fetch] := by
    decide
  refine ⟨by decide, by decide, ?_, ?_⟩
  · intro p persist h
    rw [hops] at h
    simp at h
  rintro ⟨a, b, c, h⟩
  have h2 : some 'L' = some 'c' := congrArg List.head? h
  exact absurd h2 (by decide)

/-- Claim C6 (amended): every invocation without a LED value that passes
identification and validation exits 0, performs exactly open (read-only),
inquiry and fetch — never submit — and prints the single line
`LED: current=<n> original=<n> saved=<n>` with the current, default/original
and saved LED bytes. -/
theorem c6_read_only_report (w : World) (dev : String)
    (hdev : ¬ (dev = "--help" ∨ dev = "-help" ∨ dev = "-h"))
    (hopen : w.openOk = true) (inq : Inquiry) (hinq : w.inquiryResult = some inq)
    (hsup : deviceOk inq = true)
    (c ch o s : Page) (hf : w.fetchResult = some (c, ch, o, s))
    (hval : validate c ch o s = none) :
    run w dev none =
      ⟨0, [Op.openDev true, Op.inquire, Op.fetch], [ledLine c o s], none⟩ := by
  rw [run, if_neg hdev, hinq, hf]
  simp [parseArgs, hopen, hsup, hval]

/-- Witness for C6 (amended) at the concrete good world. -/
theorem c6_read_only_report_witness :
    run goodWorld "/dev/sg0" none =
      ⟨0, [Op.openDev true, Op.inquire, Op.fetch],
        [ledLine goodCurrent goodOriginal goodSaved], none⟩ :=
  c6_read_only_report goodWorld "/dev/sg0" (by decide) rfl wdInquiry rfl (by decide)
    goodCurrent goodChangeable goodOriginal goodSaved rfl (by decide)

/-- Every accepted LED value is nonnegative (the C range check
`new < 0x00` rejects negatives). -/
theorem parseLedValue_nonneg (s : List Char) (n : Int) (h : parseLedValue s = some n) :
    0 ≤ n := by
  unfold parseLedValue at h
  split_ifs at h <;> simp_all
  all_goals omega

/-- The requested value is negative exactly when no value argument was
given or the argument was the bare `FORCEGET` token. -/
theorem parseArgs_new_neg (va : Option String) (a : ArgSpec) (hp : parseArgs va = some a) :
    (a.new < 0 ↔ (va = none ∨ va = some "FORCEGET")) := by
  cases va with
  | none =>
    simp only [parseArgs] at hp
    injection hp with h
    subst h
    simp
  | some s =>
    simp only [parseArgs, processValueArg] at hp
    by_cases hfg : s = "FORCEGET"
    · rw [if_pos hfg] at hp
      injection hp with h
      subst h
      simp [hfg]
    · rw [if_neg hfg] at hp
      constructor
      · intro hneg
        exfalso
        revert hp
        split
        · rename_i n heq
          intro hp
          injection hp with h
          subst h
          have hneg' : n < 0 := hneg
          exact absurd (parseLedValue_nonneg _ n heq) (by omega)
        · intro hp
          exact Option.noConfusion hp
      · intro hor
        rcases hor with h | h
        · exact Option.noConfusion h
        · exact absurd (Option.some.inj h) hfg

/-- The operation trace of a run is empty or starts with the open call,
whose read-only flag is `new < 0`, and holds no other open call. -/
theorem run_ops_cases (w : World) (dev : String) (va : Option String) :
    (run w dev va).ops = [] ∨
    (∃ a, parseArgs va = some a ∧
      ∃ tail, (run w dev va).ops = Op.openDev (decide (a.new < 0)) :: tail ∧
        ∀ x ∈ tail, ∀ b, x ≠ Op.openDev b) := by
  rw [run]
  split
  · exact Or.inl rfl
  · split
    · exact Or.inl rfl
    · rename_i a hp
      refine Or.inr ⟨a, hp, ?_⟩
      split
      · exact ⟨[], rfl, by simp⟩
      · split
        · exact ⟨[Op.inquire], rfl, by simp⟩
        · split
          · exact ⟨[Op.inquire], rfl, by simp⟩
          · split
            · exact ⟨[Op.inquire, Op.fetch], rfl, by simp⟩
            · split
              · exact ⟨[Op.inquire, Op.fetch], rfl, by simp⟩
              · split
                · split
                  · exact ⟨[Op.inquire, Op.fetch, Op.submit _ _], rfl, by simp⟩
                  · exact ⟨[Op.inquire, Op.fetch, Op.submit _ _], rfl, by simp⟩
                · exact ⟨[Op.inquire, Op.fetch], rfl, by simp⟩

/-- Claim C10: whenever a run opens the device, the open call is the first
operation (in particular before any fetch or validation), and its
read-only flag is set if and only if no LED value was requested (no value
argument, or the bare `FORCEGET` token). -/
theorem c10_open_mode (w : World) (dev : String) (va : Option String) (ro : Bool)
    (h : Op.openDev ro ∈ (run w dev va).ops) :
    (run w dev va).ops.head? = some (Op.openDev ro) ∧
    (ro = true ↔ (va = none ∨ va = some "FORCEGET")) := by
  rcases run_ops_cases w dev va with hnil | ⟨a, hp, tail, htail, hno⟩
  · rw [hnil] at h
    simp at h
  · rw [htail] at h ⊢
    rcases List.mem_cons.mp h with hhd | htl
    · have hro : ro = decide (a.new < 0) := by
        injection hhd.symm with h
        exact h.symm
      subst hro
      refine ⟨rfl, ?_⟩
      rw [← parseArgs_new_neg va a hp]
      simp
    · exact absurd rfl (hno _ htl ro)

/-- Witness for C10: a concrete write request opens read-write as the
first operation. -/
theorem c10_open_mode_witness :
    (run goodWorld "/dev/sg0" (some "on")).ops.head? = some (Op.openDev false) ∧
    (false = true ↔ ((some "on" : Option String) = none ∨ (some "on" : Option String) = some "FORCEGET")) :=
  c10_open_mode goodWorld "/dev/sg0" (some "on") false (by decide)

/-- Claim C9: under a force token, only `UnsupportedDevice` is suppressed
(becoming a warning): the run never ends with it, while open, inquiry and
fetch failures, every structural validation failure (page id, length,
magic, led-changeable, via `ValFail.kind`), and submit failures all remain
terminal with exit status 1. -/
theorem c9_force_scope (w : World) (dev arg : String) (a : ArgSpec)
    (hdev : ¬ (dev = "--help" ∨ dev = "-help" ∨ dev = "-h"))
    (hp : parseArgs (some arg) = some a) (hforce : a.force = true) :
    (run w dev (some arg)).error ≠ some .UnsupportedDevice ∧
    (w.openOk = false →
      run w dev (some arg) =
        ⟨1, [Op.openDev (decide (a.new < 0))], [], some .OpenFailed⟩) ∧
    (w.openOk = true → w.inquiryResult = none →
      run w dev (some arg) =
        ⟨1, [Op.openDev (decide (a.new < 0)), Op.inquire], [], some .InquiryFailed⟩) ∧
    (∀ inq, w.openOk = true → w.inquiryResult = some inq → w.fetchResult = none →
      run w dev (some arg) =
        ⟨1, [Op.openDev (decide (a.new < 0)), Op.inquire, Op.fetch], [],
          some .FetchFailed⟩) ∧
    (∀ inq c ch o s e, w.openOk = true → w.inquiryResult = some inq →
      w.fetchResult = some (c, ch, o, s) → validate c ch o s = some e →
      (run w dev (some arg)).error = some e.kind ∧ (run w dev (some arg)).exitCode = 1) ∧
    (∀ inq c ch o s, w.openOk = true → w.inquiryResult = some inq →
      w.fetchResult = some (c, ch, o, s) → validate c ch o s = none →
      0 ≤ a.new → w.submitOk = false →
      (run w dev (some arg)).error = some .SubmitFailed ∧
        (run w dev (some arg)).exitCode = 1) := by
  refine ⟨?_, ?_, ?_, ?_, ?_, ?_⟩
  · rw [run, if_neg hdev, hp]
    split
    · rename_i heq
      exact absurd heq (by simp)
    · rename_i a' heq
      obtain rfl : a = a' := Option.some.inj heq
      split
      · simp
      · split
        · simp
        · split
          · rename_i hcond
            rw [hforce] at hcond
            exact absurd hcond.2 (by simp)
          · split
            · simp
            · split
              · rename_i e heq2
                cases e <;> simp [ValFail.kind]
              · split_ifs <;> simp
  · intro hopen
    rw [run, if_neg hdev, hp, hopen]
    simp
  · intro hopen hinq
    rw [run, if_neg hdev, hp, hinq, hopen]
    simp
  · intro inq hopen hinq hf
    rw [run, if_neg hdev, hp, hinq, hf, hopen]
    simp [hforce]
  · intro inq c ch o s e hopen hinq hf hval
    rw [run, if_neg hdev, hp, hinq, hf, hopen]
    simp [hforce, hval]
  · intro inq c ch o s hopen hinq hf hval hnew hsub
    rw [run, if_neg hdev, hp, hinq, hf, hopen, hsub]
    simp [hforce, hval, hnew]

/-- Witness for C9: a `FORCEGET` run against an unsupported device whose
pages fail validation still dies with the page-id error, not
`UnsupportedDevice`. -/
theorem c9_force_scope_witness :
    (run forcedBadWorld "/dev/sg0" (some "FORCEGET")).error ≠ some .UnsupportedDevice ∧
    (run forcedBadWorld "/dev/sg0" (some "FORCEGET")).error =
      some (ValFail.pageId 0).kind ∧
    (run forcedBadWorld "/dev/sg0" (some "FORCEGET")).exitCode = 1 :=
  ⟨(c9_force_scope forcedBadWorld "/dev/sg0" "FORCEGET" ⟨true, false, -1⟩
      (by decide) rfl rfl).1,
   (c9_force_scope forcedBadWorld "/dev/sg0" "FORCEGET" ⟨true, false, -1⟩
      (by decide) rfl rfl).2.2.2.2.1 ⟨"ACME", "Widget", "0.1"⟩
      zeroPage zeroPage zeroPage zeroPage (.pageId 0) rfl rfl rfl (by decide)⟩

/-- On a decimal digit, `digitVal?` in base 10 yields its value. -/
theorem digitVal?_dec (c : Char) (h1 : 48 ≤ c.toNat) (h2 : c.toNat ≤ 57) :
    digitVal? 10 c = some (c.toNat - 48) := by
  unfold digitVal?
  rw [if_pos ⟨h1, h2⟩, if_pos (by omega)]

/-- On an all-decimal-digit list, `parseDigitsAux` in base 10 consumes
everything and folds up the decimal value. -/
theorem parseDigitsAux_dec (cs : List Char) : ∀ acc k : Nat,
    (∀ x ∈ cs, 48 ≤ x.toNat ∧ x.toNat ≤ 57) →
    parseDigitsAux 10 acc k cs =
      (cs.foldl (fun a c => a * 10 + (c.toNat - 48)) acc, k + cs.length) := by
  induction cs with
  | nil => intro acc k _; simp [parseDigitsAux]
  | cons c rest ih =>
    intro acc k h
    have hc := h c (List.mem_cons_self c rest)
    rw [parseDigitsAux, digitVal?_dec c hc.1 hc.2]
    show parseDigitsAux 10 (acc * 10 + (c.toNat - 48)) (k + 1) rest = _
    rw [ih _ _ (fun x hx => h x (List.mem_cons_of_mem c hx))]
    simp only [List.foldl_cons, List.length_cons, Prod.mk.injEq]
    exact ⟨trivial, by omega⟩

/-- On a hexadecimal digit, `digitVal?` in base 16 yields its value. -/
theorem digitVal?_hex (c : Char) (h : specHexDigit c = true) :
    digitVal? 16 c = some (specHexDigitVal c) := by
  unfold specHexDigit at h
  simp only [Bool.or_eq_true, Bool.and_eq_true, decide_eq_true_eq] at h
  unfold digitVal? specHexDigitVal
  split_ifs <;> first | rfl | omega

/-- On an all-hexadecimal-digit list, `parseDigitsAux` in base 16 consumes
everything and folds up the hexadecimal value. -/
theorem parseDigitsAux_hex (cs : List Char) : ∀ acc k : Nat,
    (∀ x ∈ cs, specHexDigit x = true) →
    parseDigitsAux 16 acc k cs =
      (cs.foldl (fun a c => a * 16 + specHexDigitVal c) acc, k + cs.length) := by
  induction cs with
  | nil => intro acc k _; simp [parseDigitsAux]
  | cons c rest ih =>
    intro acc k h
    rw [parseDigitsAux, digitVal?_hex c (h c (List.mem_cons_self c rest))]
    show parseDigitsAux 16 (acc * 16 + specHexDigitVal c) (k + 1) rest = _
    rw [ih _ _ (fun x hx => h x (List.mem_cons_of_mem c hx))]
    simp only [List.foldl_cons, List.length_cons, Prod.mk.injEq]
    exact ⟨trivial, by omega⟩

/-- Values below 2^31 pass the long clamp and the int wrap unchanged. -/
theorem wrapClamp_id (v : Nat) (h : v < 2147483648) :
    wrapInt32 (clampLong (v : Int)) = (v : Int) := by
  unfold clampLong wrapInt32
  rw [min_eq_right (by omega), max_eq_right (by omega)]
  rw [Int.emod_eq_of_lt (by omega) (by omega)]
  rw [if_pos (by omega)]

/-- `strtol` base 0 on a nonempty decimal string not starting with `0`:
full consumption, decimal value. -/
theorem strtol0_dec (c : Char) (rest : List Char)
    (hall : ∀ x ∈ c :: rest, 48 ≤ x.toNat ∧ x.toNat ≤ 57) (hc0 : c ≠ '0') :
    strtol0 (c :: rest) = ((specDecimalVal (c :: rest) : Int), (c :: rest).length) := by
  have hc := hall c (List.mem_cons_self c rest)
  have hsp : cSpace c = false := by
    unfold cSpace
    simp only [Bool.or_eq_false_iff, decide_eq_false_iff_not]
    omega
  have hdash : c ≠ '-' := fun h => by rw [h] at hc; revert hc; decide
  have hplus : c ≠ '+' := fun h => by rw [h] at hc; revert hc; decide
  rw [strtol0]
  simp [List.takeWhile_cons, hsp, hdash, hplus, hc0,
    parseDigitsAux_dec (c :: rest) 0 0 hall, specDecimalVal]

/-- `strtol` base 0 on a `0x`-prefixed nonempty hexadecimal string: full
consumption, hexadecimal value. -/
theorem strtol0_hex (rest : List Char) (hne : rest ≠ [])
    (hall : ∀ x ∈ rest, specHexDigit x = true) :
    strtol0 ('0' :: 'x' :: rest) = ((specHexVal rest : Int), 2 + rest.length) := by
  have hsp0 : cSpace '0' = false := by decide
  have e1 : ('0' : Char) ≠ '-' := by decide
  have e2 : ('0' : Char) ≠ '+' := by decide
  rw [strtol0]
  simp [List.takeWhile_cons, hsp0, e1, e2,
    parseDigitsAux_hex rest 0 0 hall, specHexVal, hne, List.length_eq_zero]

/-- The value parser on a nonempty decimal string with no leading zero:
accepted exactly when the value fits in a byte. -/
theorem parseLedValue_decimal (c : Char) (rest : List Char)
    (hall : ∀ x ∈ c :: rest, 48 ≤ x.toNat ∧ x.toNat ≤ 57) (hc0 : c ≠ '0')
    (hlt : specDecimalVal (c :: rest) < 2147483648) :
    parseLedValue (c :: rest) =
      if specDecimalVal (c :: rest) ≤ 255 then some ((specDecimalVal (c :: rest) : Nat) : Int)
      else none := by
  have hc := hall c (List.mem_cons_self c rest)
  have hoff : c :: rest ≠ "off".toList := by
    intro h
    rw [show "off".toList = ['o', 'f', 'f'] from rfl] at h
    injection h with h1 _
    rw [h1] at hc
    revert hc
    decide
  have hon : c :: rest ≠ "on".toList := by
    intro h
    rw [show "on".toList = ['o', 'n'] from rfl] at h
    injection h with h1 _
    rw [h1] at hc
    revert hc
    decide
  rw [parseLedValue, if_neg hoff, if_neg hon, strtol0_dec c rest hall hc0]
  simp only [wrapClamp_id _ hlt]
  simp only [eq_self_iff_true, true_and]
  split_ifs <;> first | rfl | (exfalso; omega)

/-- The value parser on a `0x`-prefixed nonempty hexadecimal string:
accepted exactly when the value fits in a byte. -/
theorem parseLedValue_hexadecimal (rest : List Char) (hne : rest ≠ [])
    (hall : ∀ x ∈ rest, specHexDigit x = true)
    (hlt : specHexVal rest < 2147483648) :
    parseLedValue ('0' :: 'x' :: rest) =
      if specHexVal rest ≤ 255 then some ((specHexVal rest : Nat) : Int) else none := by
  have hoff : ('0' :: 'x' :: rest) ≠ "off".toList := by
    intro h
    rw [show "off".toList = ['o', 'f', 'f'] from rfl] at h
    injection h with h1 _
    exact absurd h1 (by decide)
  have hon : ('0' :: 'x' :: rest) ≠ "on".toList := by
    intro h
    rw [show "on".toList = ['o', 'n'] from rfl] at h
    injection h with h1 _
    exact absurd h1 (by decide)
  rw [parseLedValue, if_neg hoff, if_neg hon, strtol0_hex rest hne hall]
  simp only [wrapClamp_id _ hlt]
  rw [show ('0' :: 'x' :: rest).length = 2 + rest.length from by
    simp [List.length_cons]; omega]
  simp only [eq_self_iff_true, true_and]
  split_ifs <;> first | rfl | (exfalso; omega)

/-- Counterexample to C5 as stated: the empty stripped string (e.g. from a
bare `save:` argument) is neither numeric nor `on`/`off` yet is accepted
as 0; a leading-zero decimal string (`010`) is read as octal 8, not
decimal 10; and the decimal string `4294967296` (= 2^32, outside [0,255])
wraps through the int conversion to 0 and is accepted. -/
theorem c5_counterexample :
    parseLedValue "".toList = some 0 ∧
    specDecimal? "" = none ∧ specHex? "" = none ∧
    ("" : String) ≠ "on" ∧ ("" : String) ≠ "off" ∧
    processValueArg "save:" = some ⟨false, true, 0⟩ ∧
    specDecimal? "010" = some 10 ∧ parseLedValue "010".toList = some 8 ∧
    specDecimal? "4294967296" = some 4294967296 ∧
    parseLedValue "4294967296".toList = some 0 := by
  refine ⟨by decide, by decide, by decide, by decide, by decide, by decide,
    by decide, by decide, ?_, by decide⟩
  decide

/-- Claim C5 (amended): after stripping, `off` maps to 0 and `on` to 255;
a decimal string without a leading zero (or `0` itself), and a
`0x`-prefixed hex string, map to their numeric value when it is at most
255 and are rejected when it lies in (255, 2^31); a rejected argument
aborts the run with `InvalidRequestedValue` before any device operation.
(As stated the claim fails: the empty string is accepted as 0, leading-zero
strings are parsed as octal, and values ≥ 2^31 are clamped to the long
range and wrapped to a 32-bit int before the range check.) -/
theorem c5_value_mapping :
    (parseLedValue "off".toList = some 0) ∧
    (parseLedValue "on".toList = some 255) ∧
    (parseLedValue "0".toList = some 0) ∧
    (∀ (s : String) (v : Nat), specDecimal? s = some v → s.data.head? ≠ some '0' →
      v ≤ 255 → parseLedValue s.data = some (v : Int)) ∧
    (∀ (s : String) (v : Nat), specDecimal? s = some v → s.data.head? ≠ some '0' →
      255 < v → v < 2147483648 → parseLedValue s.data = none) ∧
    (∀ (s : String) (v : Nat), specHex? s = some v → v ≤ 255 →
      parseLedValue s.data = some (v : Int)) ∧
    (∀ (s : String) (v : Nat), specHex? s = some v → 255 < v → v < 2147483648 →
      parseLedValue s.data = none) ∧
    (∀ (w : World) (dev arg : String), ¬ (dev = "--help" ∨ dev = "-help" ∨ dev = "-h") →
      processValueArg arg = none →
      run w dev (some arg) = ⟨1, [], [], some .InvalidRequestedValue⟩) := by
  refine ⟨by decide, by decide, by decide, ?_, ?_, ?_, ?_, ?_⟩
  · intro s v hspec hhead h255
    unfold specDecimal? at hspec
    split_ifs at hspec with hcond
    injection hspec with hv
    obtain ⟨hne, hallb⟩ := hcond
    rcases hl : s.data with _ | ⟨c, rest⟩
    · exact absurd hl hne
    · rw [hl] at hv hallb hhead
      have hall : ∀ x ∈ c :: rest, 48 ≤ x.toNat ∧ x.toNat ≤ 57 := by
        intro x hx
        have := List.all_eq_true.mp hallb x hx
        simpa using this
      have hc0 : c ≠ '0' := by
        intro h
        exact hhead (by rw [List.head?_cons, h])
      have hlt : specDecimalVal (c :: rest) < 2147483648 := by rw [hv]; omega
      rw [parseLedValue_decimal c rest hall hc0 hlt, hv, if_pos h255]
  · intro s v hspec hhead h255 hcap
    unfold specDecimal? at hspec
    split_ifs at hspec with hcond
    injection hspec with hv
    obtain ⟨hne, hallb⟩ := hcond
    rcases hl : s.data with _ | ⟨c, rest⟩
    · exact absurd hl hne
    · rw [hl] at hv hallb hhead
      have hall : ∀ x ∈ c :: rest, 48 ≤ x.toNat ∧ x.toNat ≤ 57 := by
        intro x hx
        have := List.all_eq_true.mp hallb x hx
        simpa using this
      have hc0 : c ≠ '0' := by
        intro h
        exact hhead (by rw [List.head?_cons, h])
      have hlt : specDecimalVal (c :: rest) < 2147483648 := by rw [hv]; omega
      rw [parseLedValue_decimal c rest hall hc0 hlt, hv, if_neg (by omega)]
  · intro s v hspec h255
    unfold specHex? at hspec
    split at hspec
    · rename_i rest heq
      split_ifs at hspec with hcond
      · injection hspec with hv
        obtain ⟨hne, hallb⟩ := hcond
        have hall : ∀ x ∈ rest, specHexDigit x = true := List.all_eq_true.mp hallb
        have hlt : specHexVal rest < 2147483648 := by rw [hv]; omega
        rw [heq, parseLedValue_hexadecimal rest hne hall hlt, hv, if_pos h255]
    · exact Option.noConfusion hspec
  · intro s v hspec h255 hcap
    unfold specHex? at hspec
    split at hspec
    · rename_i rest heq
      split_ifs at hspec with hcond
      · injection hspec with hv
        obtain ⟨hne, hallb⟩ := hcond
        have hall : ∀ x ∈ rest, specHexDigit x = true := List.all_eq_true.mp hallb
        have hlt : specHexVal rest < 2147483648 := by rw [hv]; omega
        rw [heq, parseLedValue_hexadecimal rest hne hall hlt, hv, if_neg (by omega)]
    · exact Option.noConfusion hspec
  · intro w dev arg hdev hpv
    rw [run, if_neg hdev]
    have hpa : parseArgs (some arg) = none := hpv
    rw [hpa]

/-- Witness for C5 (amended): the decimal string `42` maps to 42, and a
rejected argument (`abc`) aborts a concrete run with
`InvalidRequestedValue` and an empty operation trace. -/
theorem c5_value_mapping_witness :
    parseLedValue "42".data = some ((42 : Nat) : Int) ∧
    run goodWorld "/dev/sg0" (some "abc") = ⟨1, [], [], some .InvalidRequestedValue⟩ :=
  ⟨c5_value_mapping.2.2.2.1 "42" 42 (by decide) (by decide) (by decide),
   c5_value_mapping.2.2.2.2.2.2.2 goodWorld "/dev/sg0" "abc" (by decide) (by decide)⟩

end Wdled
